import Mathlib

/-
Verification development for the `tick` ticket-snatching client.

Part I embeds the code of `src/client.rs` (QR login and cookie assembly,
catalog selection menus, and the construction of the `Task` value handed to
the orchestrator).

Part II models, from the specification, the components that live outside
`src/` (Session Token Store, Gateway Client classification, and the Snatch
Orchestrator state machine) and proves the spec's claims about them.
-/

namespace Tick

/- ## Character-level string primitives

Executable implementations of the string operations the source relies on
(Rust `str::starts_with`, `str::contains`, and splitting), written over
character lists so that concrete runs evaluate inside the kernel. -/

/- Leading-segment test on character lists. -/
def charsHasLead : List Char → List Char → Bool
  | [], _ => true
  | _ :: _, [] => false
  | p :: ps, c :: cs => p == c && charsHasLead ps cs

/- Substring occurrence on character lists. -/
def charsOccur (pat : List Char) : List Char → Bool
  | [] => charsHasLead pat []
  | c :: cs => charsHasLead pat (c :: cs) || charsOccur pat cs

/- Rust `str::starts_with`. -/
def strStarts (s pat : String) : Bool :=
  charsHasLead pat.toList s.toList

/- Rust `str::contains`: substring containment. -/
def strContains (s pat : String) : Bool :=
  charsOccur pat.toList s.toList

/- Split a character list on a separator character; like `String.splitOn`
for a one-character pattern. -/
def splitChars (sep : Char) (cs : List Char) : List (List Char) :=
  cs.foldr
    (fun c acc =>
      if c == sep then [] :: acc
      else
        match acc with
        | [] => [[c]]
        | a :: rest => (c :: a) :: rest)
    [[]]

/- ## Part I: embedding of src/client.rs -/

/-
Cookie assembly in `Client::login` (client.rs lines 185-192): iterate over the
browser cookies; skip every cookie whose name starts with `_m_h5_tk`; append
`name=value;` for the rest.
-/
def cookieString (cookies : List (String × String)) : String :=
  cookies.foldl
    (fun acc item =>
      if strStarts item.1 "_m_h5_tk" then acc
      else acc ++ item.1 ++ "=" ++ item.2 ++ ";")
    ""

/- Semicolon-terminated join of a name=value list, used to characterize the
assembled cookie header. -/
def semijoin : List (String × String) → String
  | [] => ""
  | item :: rest => item.1 ++ "=" ++ item.2 ++ ";" ++ semijoin rest

/- Errors surfaced by the login flow (`ClientError` variants and propagated
webdriver failures, abstracted). -/
inductive LoginErr
  | setupFailed
  | qrcodeFailed
  | navFailed
  | cookiesFailed
  | quitFailed
deriving DecidableEq

/-
Environment observed by one execution of `Client::login`:
- `setupOk`: the fallible driver/goto/click/query steps up to reading the QR
  `src` attribute (lines 95-128) all succeed;
- `qrSrc`: the `src` attribute of the QR image element (line 125);
- `qrcodeOk`: `get_qrcode` succeeds (line 135);
- `polls i`: outcome of polling round `i` of the nickname element (lines
  145-162): `none` when the query or the text read errors, `some t` when the
  element's text `t` is read;
- `gotoOk`: navigation to the h5 page succeeds (line 174);
- `cookiesOk`: `get_all_cookies` succeeds (line 183);
- `quitOk`: `driver.quit()` at line 166 succeeds;
- `cookies`: the browser's cookie jar as (name, value) pairs.
-/
structure LoginEnv where
  setupOk : Bool
  qrSrc : Option String
  qrcodeOk : Bool
  polls : Nat → Option String
  gotoOk : Bool
  cookiesOk : Bool
  quitOk : Bool
  cookies : List (String × String)

/- The `for _ in 0..60` polling loop: first round whose query and text read
both succeed yields the nickname; otherwise the loop falls through. -/
def findNickFrom (polls : Nat → Option String) (i : Nat) : Nat → Option String
  | 0 => none
  | fuel + 1 =>
    match polls i with
    | some t => some t
    | none => findNickFrom polls (i + 1) fuel

def findNick (polls : Nat → Option String) : Option String :=
  findNickFrom polls 0 60

/-
`Client::login` (client.rs lines 91-197), as a function of the observed
environment:
- absent QR `src` attribute: quit is attempted with its error discarded
  (`let _ = driver.quit()`), and `Ok(("", ""))` is returned (lines 129-132);
- nickname not observed in 60 rounds: `driver.quit().await?` (line 166) is
  propagated, then `Ok(("", ""))` is returned (lines 164-168);
- otherwise the cookie header is assembled and returned with the nickname.
-/
def login (env : LoginEnv) : Except LoginErr (String × String) :=
  if !env.setupOk then Except.error LoginErr.setupFailed
  else
    match env.qrSrc with
    | none => Except.ok ("", "")
    | some _ =>
      if !env.qrcodeOk then Except.error LoginErr.qrcodeFailed
      else
        match findNick env.polls with
        | none =>
          if !env.quitOk then Except.error LoginErr.quitFailed
          else Except.ok ("", "")
        | some nickname =>
          if !env.gotoOk then Except.error LoginErr.navFailed
          else if !env.cookiesOk then Except.error LoginErr.cookiesFailed
          else Except.ok (cookieString env.cookies, nickname)

/- ### Session Token Store (modelled from the spec) -/

inductive StoreError
  | invalidSession
deriving DecidableEq

/-- Modelled from the spec: the Session Token Store construction (spec 4.2 and
6) is not present under `src/`; per the spec the cookie header is parsed as a
semicolon-joined name=value list, the token-bearing field (name starting with
the known token prefix `_m_h5_tk`, the prefix named at client.rs line 188) is
located, and the leading segment of its value up to the `_` delimiter becomes
the signing token; when no token-bearing field is present the construction
fails with `InvalidSession`. -/
def tokenStoreInit (cookieHeader : String) : Except StoreError String :=
  let fields := (splitChars ';' cookieHeader.toList).map String.mk
  match fields.find? (fun f => strStarts f "_m_h5_tk") with
  | none => Except.error StoreError.invalidSession
  | some f =>
    let value := (splitChars '=' f.toList).getD 1 []
    Except.ok (String.mk ((splitChars '_' value).headD []))

/- ### Operator menus and Task construction (`Client::run`, lines 324-404) -/

/-
A `terminal_menu` numeric item: `numeric(name, default, step, min, max)`.
The operator adjusts the value from `default` in increments of `step`,
constrained to `[lo, hi]` where `lo`/`hi` are the item's `min`/`max` bounds
(`none` means unconstrained on that side).
-/
structure NumericItem where
  default : Int
  step : Option Int
  lo : Option Int
  hi : Option Int

def NumericItem.reachable (it : NumericItem) (v : Int) : Prop :=
  (∃ k : Int, v = it.default + k * it.step.getD 0) ∧
  (∀ m, it.lo = some m → m ≤ v) ∧
  (∀ m, it.hi = some m → v ≤ m)

/- `numeric("购票数量", 1.0, Some(1.0), Some(1.0), Some(4.0))` (lines 336-342). -/
def ticketNumItem : NumericItem := ⟨1, some 1, some 1, some 4⟩

/- `numeric("重试次数", 5.0, Some(1.0), None, Some(10.0))` (line 349). -/
def retryTimesItem : NumericItem := ⟨5, some 1, none, some 10⟩

/- `numeric("重试间隔", 100.0, Some(10.0), None, Some(1000.0))` (line 356). -/
def retryIntervalItem : NumericItem := ⟨100, some 10, none, some 1000⟩

/- `numeric("生成-提交订单间隔(毫秒)", 30.0, Some(10.0), Some(0.0), None)` (line 363). -/
def waitForSubmitItem : NumericItem := ⟨30, some 10, some 0, none⟩

/- `numeric("请求时间偏移量(毫秒)", 0.0, Some(10.0), Some(-100.0), Some(1000.0))`
(lines 369-378). -/
def requestOffsetItem : NumericItem := ⟨0, some 10, some (-100), some 1000⟩

/- `numeric("优先购时长(分钟)", 0.0, Some(20.0), Some(0.0), Some(60.0))` (line 383). -/
def priorityItem : NumericItem := ⟨0, some 20, some 0, some 60⟩

/- `models::task::Task` as constructed by `Client::run` (lines 389-404). -/
structure Task where
  nickname : String
  ticket_id : String
  ticket_name : String
  ticket_perform_id : String
  ticket_perform_name : String
  ticket_perform_sku_id : String
  ticket_perform_sku_name : String
  ticket_num : Nat
  priority_purchase_time : Int
  request_time_offset : Int
  retry_interval : Nat
  retry_times : Nat
  wait_for_submit_interval : Nat
  real_names : List String
deriving DecidableEq

/-
The `Task` literal of lines 389-404. The menu values are f64; the casts
`as usize` / `as u64` saturate negative values to 0 (`Int.toNat`), and
`as i64` is the identity on the in-range values occurring here.
-/
def mkTask (nickname ticket_id ticket_name perform_id perform_name sku_id sku_name : String)
    (ticket_num retry_times retry_interval wait_for_submit_interval
     request_time_offset priority_purchase_time : Int) : Task :=
  { nickname := nickname
    ticket_id := ticket_id
    ticket_name := ticket_name
    ticket_perform_id := perform_id
    ticket_perform_name := perform_name
    ticket_perform_sku_id := sku_id
    ticket_perform_sku_name := sku_name
    ticket_num := ticket_num.toNat
    priority_purchase_time := priority_purchase_time
    request_time_offset := request_time_offset
    retry_interval := retry_interval.toNat
    retry_times := retry_times.toNat
    wait_for_submit_interval := wait_for_submit_interval.toNat
    real_names := [] }

/- ### Catalog selection (`Client::get_ticket_id`, lines 200-244) -/

structure Ticket where
  ticket_id : String
  ticket_name : String
  category_name : String
  sale_time : Nat
deriving DecidableEq

def isConcert (t : Ticket) : Bool :=
  strContains t.category_name "演唱会"

/-
The two filtering loops of `get_ticket_id` (lines 214-228): push into
`tickets` the items of the today-must-grab module, then of the upcoming
module, skipping every item whose `category_name` does not contain "演唱会".
The selection menu is built over exactly this list (lines 230-243).
-/
def selectableTickets (todayItems upcomingItems : List Ticket) : List Ticket :=
  let tickets :=
    todayItems.foldl
      (fun acc ticket => if !(isConcert ticket) then acc else acc ++ [ticket]) []
  upcomingItems.foldl
    (fun acc ticket => if !(isConcert ticket) then acc else acc ++ [ticket]) tickets

/- ## Part II: the Snatch Orchestrator and Gateway Client, modelled from the spec

The orchestrator (`DmTicket`), the Gateway Client and the Signed Request
Builder are code of this repository that is not under `src/`; everything in
this part is modelled from the specification (sections 4.3, 4.4, 7). -/

/-- Modelled from the spec: the `PurchaseTask` descriptor (spec section 3);
the concrete `Task` produced by `Client::run` plays this role, with the field
correspondence quantity = ticket_num, priority_window_minutes =
priority_purchase_time, clock_offset_ms = request_time_offset, think_time_ms =
wait_for_submit_interval, retry_count = retry_times, retry_interval_ms =
retry_interval. -/
structure PurchaseTask where
  sku_id : String
  quantity : Nat
  sale_time : Int
  priority_window_minutes : Int
  clock_offset_ms : Int
  think_time_ms : Nat
  retry_count : Nat
  retry_interval_ms : Nat
  real_names : List String
deriving DecidableEq

/-- Modelled from the spec: raw per-call gateway outcomes as classified by the
Gateway Client (spec 4.3): `Success`, `SessionExpired`, `RateLimited`,
`SoldOut`/`Exhausted`, `MalformedRequest`, `Unknown`, and transport-level
failure (timeout / connection error, spec 4.4 and 5). -/
inductive RawOutcome
  | ok (payload : String)
  | sessionExpired
  | rateLimited
  | soldOut
  | malformed
  | unknown
  | transport
deriving DecidableEq

/-- Modelled from the spec: the outcome of one logical Gateway Client call as
seen by the Orchestrator, after the client's internal session-refresh policy
(spec 4.3): a `SessionExpired` that survives the one internal rotation+retry
surfaces as `sessionInvalid`. -/
inductive GwResult
  | ok (payload : String)
  | sessionInvalid
  | rateLimited
  | soldOut
  | malformed
  | unknown
  | transport
deriving DecidableEq

def classifyRaw : RawOutcome → GwResult
  | RawOutcome.ok p => GwResult.ok p
  | RawOutcome.sessionExpired => GwResult.sessionInvalid
  | RawOutcome.rateLimited => GwResult.rateLimited
  | RawOutcome.soldOut => GwResult.soldOut
  | RawOutcome.malformed => GwResult.malformed
  | RawOutcome.unknown => GwResult.unknown
  | RawOutcome.transport => GwResult.transport

/-- Modelled from the spec: one logical Gateway Client call (spec 4.3).
`raw1` is the first physical response; when it is `SessionExpired` the client
rotates the token once and transparently retries, and `raw2` is the retried
call's response (a second consecutive `SessionExpired` therefore surfaces as
`sessionInvalid` via `classifyRaw`). Returns the surfaced result and the
number of token rotations performed. -/
def logicalCall (raw1 raw2 : RawOutcome) : GwResult × Nat :=
  match raw1 with
  | RawOutcome.sessionExpired => (classifyRaw raw2, 1)
  | r => (classifyRaw r, 0)

/-- Modelled from the spec: the environment one create/submit cycle observes —
the physical gateway responses for the order-creation call (and its internal
session-refresh retry), the cancellation signal during `ThinkDelay`, the
responses for the order-submission call, and the cancellation signal during
the `Retrying` sleep. -/
structure CycleEnv where
  createRaw : RawOutcome
  createRetryRaw : RawOutcome
  cancelThink : Bool
  submitRaw : RawOutcome
  submitRetryRaw : RawOutcome
  cancelRetry : Bool

/-- Modelled from the spec: the full environment of an orchestrator run — the
cancellation signal during `WaitingForWindow` and the per-cycle environments. -/
structure SnatchEnv where
  cancelWait : Bool
  cyc : Nat → CycleEnv

inductive FailReason
  | sessionInvalid
  | fatal
  | attemptsExhausted
deriving DecidableEq

/-- Modelled from the spec: the terminal `SnatchOutcome` (spec section 3). -/
inductive SnatchOutcome
  | success (order_ref : String)
  | failed (reason : FailReason)
  | cancelled
deriving DecidableEq

/-- Modelled from the spec: observable events of an orchestrator run — the
computed wake-up target, each logical order-creation call (with the remaining
attempt budget at `CreatingOrder` entry and the surfaced result), each logical
order-submission call (with the `OrderToken` it consumes), and each `Retrying`
visit (attempt counter before and after the decrement). -/
inductive Ev
  | waitUntil (target : Int)
  | create (attemptsLeft : Nat) (res : GwResult)
  | submit (token : String) (res : GwResult)
  | retrying (before after : Nat)
deriving DecidableEq

/-- Modelled from the spec: the `WaitingForWindow` wake-up target,
`sale_time - priority_window_minutes*60000 + clock_offset_ms` (spec 4.4). -/
def waitTarget (t : PurchaseTask) : Int :=
  t.sale_time - t.priority_window_minutes * 60000 + t.clock_offset_ms

inductive CycleRes
  | done (out : SnatchOutcome)
  | retry
deriving DecidableEq

/-- Modelled from the spec: one `CreatingOrder` → `ThinkDelay` →
`SubmittingOrder` cycle (spec 4.4). `attempts` is the remaining budget at
`CreatingOrder` entry, recorded in the trace. Failure routing: fresh-token
`ok` proceeds; `sessionInvalid` → `Failed(SessionInvalid)`; `malformed` →
`Failed(Fatal)`; `RateLimited`/`SoldOut`/`Unknown`/transport → `Retrying`;
cancellation during `ThinkDelay` → `Cancelled` with no submission. -/
def runCycle (e : CycleEnv) (attempts : Nat) : CycleRes × List Ev :=
  match (logicalCall e.createRaw e.createRetryRaw).1 with
  | GwResult.ok token =>
    if e.cancelThink then
      (CycleRes.done SnatchOutcome.cancelled, [Ev.create attempts (GwResult.ok token)])
    else
      match (logicalCall e.submitRaw e.submitRetryRaw).1 with
      | GwResult.ok orderRef =>
        (CycleRes.done (SnatchOutcome.success orderRef),
         [Ev.create attempts (GwResult.ok token), Ev.submit token (GwResult.ok orderRef)])
      | GwResult.sessionInvalid =>
        (CycleRes.done (SnatchOutcome.failed FailReason.sessionInvalid),
         [Ev.create attempts (GwResult.ok token), Ev.submit token GwResult.sessionInvalid])
      | GwResult.malformed =>
        (CycleRes.done (SnatchOutcome.failed FailReason.fatal),
         [Ev.create attempts (GwResult.ok token), Ev.submit token GwResult.malformed])
      | r =>
        (CycleRes.retry, [Ev.create attempts (GwResult.ok token), Ev.submit token r])
  | GwResult.sessionInvalid =>
    (CycleRes.done (SnatchOutcome.failed FailReason.sessionInvalid),
     [Ev.create attempts GwResult.sessionInvalid])
  | GwResult.malformed =>
    (CycleRes.done (SnatchOutcome.failed FailReason.fatal),
     [Ev.create attempts GwResult.malformed])
  | r => (CycleRes.retry, [Ev.create attempts r])

/-- Modelled from the spec: the retry loop of the orchestrator (spec 4.4).
Entered at `CreatingOrder` with the remaining attempt budget; on a transient
cycle failure the `Retrying` state decrements the budget and re-enters
`CreatingOrder` while the budget stays positive, otherwise terminates with
`Failed(AttemptsExhausted)`; a cancellation observed during the `Retrying`
sleep terminates with `Cancelled`. A fresh cycle environment (`idx`) is
consumed per cycle: an `OrderToken` is never carried across cycles. -/
def runLoop (env : SnatchEnv) : Nat → Nat → SnatchOutcome × List Ev
  | idx, 0 =>
    match runCycle (env.cyc idx) 0 with
    | (CycleRes.done out, evs) => (out, evs)
    | (CycleRes.retry, evs) =>
      if (env.cyc idx).cancelRetry then (SnatchOutcome.cancelled, evs)
      else (SnatchOutcome.failed FailReason.attemptsExhausted, evs ++ [Ev.retrying 0 0])
  | idx, a + 1 =>
    match runCycle (env.cyc idx) (a + 1) with
    | (CycleRes.done out, evs) => (out, evs)
    | (CycleRes.retry, evs) =>
      if (env.cyc idx).cancelRetry then (SnatchOutcome.cancelled, evs)
      else if 0 < a then
        let r := runLoop env (idx + 1) a
        (r.1, evs ++ Ev.retrying (a + 1) a :: r.2)
      else (SnatchOutcome.failed FailReason.attemptsExhausted, evs ++ [Ev.retrying 1 0])

/-- Modelled from the spec: a full orchestrator run over one `PurchaseTask`
(spec 4.4): compute the wake-up target, honor cancellation during the
`WaitingForWindow` sleep, then enter the create/submit/retry loop with the
task's `retry_count` as the attempt budget. Returns the terminal outcome and
the run's event trace. -/
def snatch (t : PurchaseTask) (env : SnatchEnv) : SnatchOutcome × List Ev :=
  if env.cancelWait then (SnatchOutcome.cancelled, [Ev.waitUntil (waitTarget t)])
  else
    let r := runLoop env 0 t.retry_count
    (r.1, Ev.waitUntil (waitTarget t) :: r.2)

/- ### Trace observations -/

def retryVisits (evs : List Ev) : List (Nat × Nat) :=
  evs.filterMap
    (fun e =>
      match e with
      | Ev.retrying b a => some (b, a)
      | _ => none)

def createCount (evs : List Ev) : Nat :=
  (evs.filter
    (fun e =>
      match e with
      | Ev.create _ _ => true
      | _ => false)).length

def submitCount (evs : List Ev) : Nat :=
  (evs.filter
    (fun e =>
      match e with
      | Ev.submit _ _ => true
      | _ => false)).length

/- Every submission event is immediately preceded by the creation event that
minted the very token it consumes. -/
def submitsPaired (l : List Ev) : Prop :=
  ∀ i tok res, l[i]? = some (Ev.submit tok res) →
    1 ≤ i ∧ ∃ a, l[i - 1]? = some (Ev.create a (GwResult.ok tok))

/- ## Helper lemmas -/

theorem cookieString_foldl (l : List (String × String)) :
    ∀ acc : String,
      l.foldl
        (fun acc item =>
          if strStarts item.1 "_m_h5_tk" then acc
          else acc ++ item.1 ++ "=" ++ item.2 ++ ";") acc
        = acc ++ semijoin (l.filter fun item => !(strStarts item.1 "_m_h5_tk")) := by
  induction l with
  | nil => intro acc; simp [semijoin, String.append_empty]
  | cons hd tl ih =>
    intro acc
    rw [List.foldl_cons, ih, List.filter_cons]
    cases h : strStarts hd.1 "_m_h5_tk" <;>
      simp [h, semijoin, String.append_assoc]

theorem foldl_push_filter {α : Type} (p : α → Bool) (l : List α) :
    ∀ acc : List α,
      l.foldl (fun acc t => if !(p t) then acc else acc ++ [t]) acc = acc ++ l.filter p := by
  induction l with
  | nil => intro acc; simp
  | cons hd tl ih =>
    intro acc
    rw [List.foldl_cons, ih, List.filter_cons]
    cases h : p hd <;> simp [h]

theorem runCycle_shape (e : CycleEnv) (attempts : Nat) :
    (∃ r, (runCycle e attempts).2 = [Ev.create attempts r]) ∨
    (∃ tok sres, (runCycle e attempts).2
        = [Ev.create attempts (GwResult.ok tok), Ev.submit tok sres]) := by
  unfold runCycle
  split
  all_goals try exact Or.inl ⟨_, rfl⟩
  split
  · exact Or.inl ⟨_, rfl⟩
  · split <;> exact Or.inr ⟨_, _, rfl⟩

theorem runCycle_retryVisits (e : CycleEnv) (attempts : Nat) :
    retryVisits (runCycle e attempts).2 = [] := by
  rcases runCycle_shape e attempts with ⟨r, h⟩ | ⟨tok, sres, h⟩ <;>
    simp [h, retryVisits]

theorem runCycle_createCount (e : CycleEnv) (attempts : Nat) :
    createCount (runCycle e attempts).2 = 1 := by
  rcases runCycle_shape e attempts with ⟨r, h⟩ | ⟨tok, sres, h⟩ <;>
    simp [h, createCount]

theorem retryVisits_append (l1 l2 : List Ev) :
    retryVisits (l1 ++ l2) = retryVisits l1 ++ retryVisits l2 := by
  simp [retryVisits]

theorem retryVisits_cons_retrying (b a : Nat) (l : List Ev) :
    retryVisits (Ev.retrying b a :: l) = (b, a) :: retryVisits l := by
  simp [retryVisits]

theorem retryVisits_cons_waitUntil (target : Int) (l : List Ev) :
    retryVisits (Ev.waitUntil target :: l) = retryVisits l := by
  simp [retryVisits]

theorem createCount_append (l1 l2 : List Ev) :
    createCount (l1 ++ l2) = createCount l1 + createCount l2 := by
  simp [createCount]

theorem submitCount_append (l1 l2 : List Ev) :
    submitCount (l1 ++ l2) = submitCount l1 + submitCount l2 := by
  simp [submitCount]

theorem submitsPaired_of_no_submit {l : List Ev}
    (h : ∀ tok res, Ev.submit tok res ∉ l) : submitsPaired l := by
  intro i tok res hi
  exact absurd (List.getElem?_mem hi) (h tok res)

theorem submitsPaired_append {l1 l2 : List Ev}
    (h1 : submitsPaired l1) (h2 : submitsPaired l2) : submitsPaired (l1 ++ l2) := by
  intro i tok res h
  by_cases hlt : i < l1.length
  · rw [List.getElem?_append, if_pos hlt] at h
    obtain ⟨h1le, a, ha⟩ := h1 i tok res h
    refine ⟨h1le, a, ?_⟩
    rw [List.getElem?_append, if_pos (by omega)]
    exact ha
  · rw [List.getElem?_append, if_neg hlt] at h
    obtain ⟨hke, a, ha⟩ := h2 (i - l1.length) tok res h
    have hge : l1.length ≤ i := Nat.not_lt.mp hlt
    refine ⟨by omega, a, ?_⟩
    rw [List.getElem?_append, if_neg (by omega)]
    have heq : i - 1 - l1.length = i - l1.length - 1 := by omega
    rw [heq]
    exact ha

theorem submitsPaired_pair (a : Nat) (tok : String) (sres : GwResult) :
    submitsPaired [Ev.create a (GwResult.ok tok), Ev.submit tok sres] := by
  intro i tok' res h
  match i with
  | 0 => simp at h
  | 1 =>
    simp at h
    obtain ⟨htok, hres⟩ := h
    subst htok
    exact ⟨le_refl 1, a, by simp⟩
  | n + 2 => simp at h

theorem runCycle_paired (e : CycleEnv) (attempts : Nat) :
    submitsPaired (runCycle e attempts).2 := by
  rcases runCycle_shape e attempts with ⟨r, h⟩ | ⟨tok, sres, h⟩
  · rw [h]
    exact submitsPaired_of_no_submit (by simp)
  · rw [h]
    exact submitsPaired_pair attempts tok sres

theorem runLoop_paired (env : SnatchEnv) :
    ∀ attempts idx, submitsPaired (runLoop env idx attempts).2 := by
  intro attempts
  induction attempts with
  | zero =>
    intro idx
    rcases hcy : runCycle (env.cyc idx) 0 with ⟨cr, evs⟩
    have hpe : submitsPaired evs := by
      have := runCycle_paired (env.cyc idx) 0
      rw [hcy] at this
      exact this
    cases cr with
    | done out => simpa [runLoop, hcy] using hpe
    | retry =>
      by_cases hcan : (env.cyc idx).cancelRetry = true
      · simpa [runLoop, hcy, hcan] using hpe
      · simp only [Bool.not_eq_true] at hcan
        have htr : (runLoop env idx 0).2 = evs ++ [Ev.retrying 0 0] := by
          simp [runLoop, hcy, hcan]
        rw [htr]
        exact submitsPaired_append hpe (submitsPaired_of_no_submit (by simp))
  | succ a ih =>
    intro idx
    rcases hcy : runCycle (env.cyc idx) (a + 1) with ⟨cr, evs⟩
    have hpe : submitsPaired evs := by
      have := runCycle_paired (env.cyc idx) (a + 1)
      rw [hcy] at this
      exact this
    cases cr with
    | done out => simpa [runLoop, hcy] using hpe
    | retry =>
      by_cases hcan : (env.cyc idx).cancelRetry = true
      · simpa [runLoop, hcy, hcan] using hpe
      · simp only [Bool.not_eq_true] at hcan
        by_cases ha : 0 < a
        · have htr : (runLoop env idx (a + 1)).2
              = evs ++ Ev.retrying (a + 1) a :: (runLoop env (idx + 1) a).2 := by
            simp [runLoop, hcy, hcan, ha]
          rw [htr]
          refine submitsPaired_append hpe ?_
          have : Ev.retrying (a + 1) a :: (runLoop env (idx + 1) a).2
              = [Ev.retrying (a + 1) a] ++ (runLoop env (idx + 1) a).2 := rfl
          rw [this]
          exact submitsPaired_append (submitsPaired_of_no_submit (by simp)) (ih (idx + 1))
        · have htr : (runLoop env idx (a + 1)).2 = evs ++ [Ev.retrying 1 0] := by
            have ha0 : a = 0 := by omega
            subst ha0
            simp [runLoop, hcy, hcan]
          rw [htr]
          exact submitsPaired_append hpe (submitsPaired_of_no_submit (by simp))

theorem runLoop_visits (env : SnatchEnv) :
    ∀ attempts idx, 1 ≤ attempts →
      (∀ p ∈ retryVisits (runLoop env idx attempts).2, p.2 + 1 = p.1 ∧ p.1 ≤ attempts) ∧
      List.Pairwise (fun p q : Nat × Nat => q.1 < p.1) (retryVisits (runLoop env idx attempts).2) ∧
      (retryVisits (runLoop env idx attempts).2).length ≤ attempts := by
  intro attempts
  induction attempts with
  | zero => intro idx h; exact absurd h (by omega)
  | succ a ih =>
    intro idx _
    rcases hcy : runCycle (env.cyc idx) (a + 1) with ⟨cr, evs⟩
    have hevs : retryVisits evs = [] := by
      have := runCycle_retryVisits (env.cyc idx) (a + 1)
      rw [hcy] at this
      exact this
    cases cr with
    | done out =>
      have htr : (runLoop env idx (a + 1)).2 = evs := by simp [runLoop, hcy]
      rw [htr, hevs]
      simp
    | retry =>
      by_cases hcan : (env.cyc idx).cancelRetry = true
      · have htr : (runLoop env idx (a + 1)).2 = evs := by simp [runLoop, hcy, hcan]
        rw [htr, hevs]
        simp
      · simp only [Bool.not_eq_true] at hcan
        by_cases ha : 0 < a
        · have iha := ih (idx + 1) (by omega)
          have htr : (runLoop env idx (a + 1)).2
              = evs ++ Ev.retrying (a + 1) a :: (runLoop env (idx + 1) a).2 := by
            simp [runLoop, hcy, hcan, ha]
          have hvis : retryVisits (runLoop env idx (a + 1)).2
              = (a + 1, a) :: retryVisits (runLoop env (idx + 1) a).2 := by
            rw [htr, retryVisits_append, hevs, retryVisits_cons_retrying]
            simp
          rw [hvis]
          refine ⟨?_, ?_, ?_⟩
          · intro p hp
            rcases List.mem_cons.mp hp with rfl | hp'
            · exact ⟨rfl, le_refl _⟩
            · have := iha.1 p hp'
              exact ⟨this.1, by omega⟩
          · rw [List.pairwise_cons]
            refine ⟨?_, iha.2.1⟩
            intro q hq
            have := iha.1 q hq
            simp only []
            omega
          · simp only [List.length_cons]
            have := iha.2.2
            omega
        · have ha0 : a = 0 := by omega
          subst ha0
          have htr : (runLoop env idx 1).2 = evs ++ [Ev.retrying 1 0] := by
            simp [runLoop, hcy, hcan]
          have hvis : retryVisits (runLoop env idx 1).2 = [(1, 0)] := by
            rw [htr, retryVisits_append, hevs, retryVisits_cons_retrying]
            simp [retryVisits]
          rw [hvis]
          refine ⟨?_, by simp, by simp⟩
          intro p hp
          rcases List.mem_singleton.mp hp with rfl
          exact ⟨rfl, le_refl _⟩

theorem runLoop_soldout (env : SnatchEnv)
    (hcr : ∀ i, (env.cyc i).createRaw = RawOutcome.soldOut)
    (hca : ∀ i, (env.cyc i).cancelRetry = false) :
    ∀ attempts idx, 1 ≤ attempts →
      (runLoop env idx attempts).1 = SnatchOutcome.failed FailReason.attemptsExhausted ∧
      createCount (runLoop env idx attempts).2 = attempts ∧
      submitCount (runLoop env idx attempts).2 = 0 := by
  have hcyc : ∀ idx n, runCycle (env.cyc idx) n
      = (CycleRes.retry, [Ev.create n GwResult.soldOut]) := by
    intro idx n
    simp [runCycle, logicalCall, hcr idx, classifyRaw]
  intro attempts
  induction attempts with
  | zero => intro idx h; exact absurd h (by omega)
  | succ a ih =>
    intro idx _
    by_cases ha : 0 < a
    · have iha := ih (idx + 1) (by omega)
      have htr : runLoop env idx (a + 1)
          = ((runLoop env (idx + 1) a).1,
             [Ev.create (a + 1) GwResult.soldOut]
               ++ Ev.retrying (a + 1) a :: (runLoop env (idx + 1) a).2) := by
        simp [runLoop, hcyc idx, hca idx, ha]
      rw [htr]
      refine ⟨iha.1, ?_, ?_⟩
      · have : Ev.retrying (a + 1) a :: (runLoop env (idx + 1) a).2
            = [Ev.retrying (a + 1) a] ++ (runLoop env (idx + 1) a).2 := rfl
        rw [this, createCount_append, createCount_append, iha.2.1]
        simp [createCount]
        omega
      · have : Ev.retrying (a + 1) a :: (runLoop env (idx + 1) a).2
            = [Ev.retrying (a + 1) a] ++ (runLoop env (idx + 1) a).2 := rfl
        rw [this, submitCount_append, submitCount_append, iha.2.2]
        simp [submitCount]
    · have ha0 : a = 0 := by omega
      subst ha0
      have htr : runLoop env idx 1
          = (SnatchOutcome.failed FailReason.attemptsExhausted,
             [Ev.create 1 GwResult.soldOut] ++ [Ev.retrying 1 0]) := by
        simp [runLoop, hcyc idx, hca idx]
      rw [htr]
      exact ⟨rfl, by simp [createCount], by simp [submitCount]⟩

/- ## Claim theorems -/

/-- Claim C1, counterexample: a successful login whose browser jar contains a
token cookie `_m_h5_tk` still yields a cookie header without any token field
(the assembly loop skips it), and Token Store construction on that header
fails with `InvalidSession` — refuting the claim that for every successful
login the construction does not fail. -/
theorem c1_counterexample :
    login { setupOk := true, qrSrc := some "qr", qrcodeOk := true,
            polls := fun _ => some "昵称", gotoOk := true, cookiesOk := true, quitOk := true,
            cookies := [("_m_h5_tk", "abcdef0123_1699999999999"), ("cookie2", "v2")] }
      = Except.ok ("cookie2=v2;", "昵称") ∧
    tokenStoreInit "cookie2=v2;" = Except.error StoreError.invalidSession :=
  ⟨rfl, rfl⟩

/-- Claim C1 (amended): the cookie header assembled by `Client::login` is the
semicolon-joined name=value list of exactly those browser cookies whose name
does NOT start with the known token prefix `_m_h5_tk`; the token field is
always excluded, so Token Store construction on the header fails with
`InvalidSession` whenever the token prefix is `_m_h5_tk` (see the
counterexample). -/
theorem c1_cookie_header (cookies : List (String × String)) :
    cookieString cookies
      = semijoin (cookies.filter fun item => !(strStarts item.1 "_m_h5_tk")) := by
  unfold cookieString
  rw [cookieString_foldl]
  exact String.empty_append _

/-- Claim C2, counterexample: the operator menus do not enforce the spec
ranges — value 0 is reachable for the retry-count menu (no `min` bound), the
retry-interval menu (no `min` bound) and the create-submit interval menu
(`min` is 0), and the resulting `Task` has `retry_times = 0` (outside 1..10),
`retry_interval = 0` (outside 10..1000) and `wait_for_submit_interval = 0`
(violating think_time >= 10). -/
theorem c2_counterexample :
    retryTimesItem.reachable 0 ∧ retryIntervalItem.reachable 0 ∧
    waitForSubmitItem.reachable 0 ∧
    (mkTask "" "" "" "" "" "" "" 1 0 0 0 0 0).retry_times = 0 ∧
    (mkTask "" "" "" "" "" "" "" 1 0 0 0 0 0).retry_interval = 0 ∧
    (mkTask "" "" "" "" "" "" "" 1 0 0 0 0 0).wait_for_submit_interval = 0 ∧
    ¬(1 ≤ (mkTask "" "" "" "" "" "" "" 1 0 0 0 0 0).retry_times) ∧
    ¬(10 ≤ (mkTask "" "" "" "" "" "" "" 1 0 0 0 0 0).retry_interval) ∧
    ¬(10 ≤ (mkTask "" "" "" "" "" "" "" 1 0 0 0 0 0).wait_for_submit_interval) := by
  refine ⟨⟨⟨-5, by decide⟩, ?_, ?_⟩, ⟨⟨-10, by decide⟩, ?_, ?_⟩, ⟨⟨-3, by decide⟩, ?_, ?_⟩,
    rfl, rfl, rfl, by decide, by decide, by decide⟩
  · intro m hm; simp [retryTimesItem] at hm
  · intro m hm; simp [retryTimesItem] at hm; omega
  · intro m hm; simp [retryIntervalItem] at hm
  · intro m hm; simp [retryIntervalItem] at hm; omega
  · intro m hm; simp [waitForSubmitItem] at hm; omega
  · intro m hm; simp [waitForSubmitItem] at hm

/-- Claim C2 (amended): for every `Task` value constructed by `Client::run`
from menu-reachable operator choices, the bounds the menus do enforce hold:
quantity in 1..4, priority_window_minutes in 0..60, clock_offset_ms in
-100..1000, retry_count at most 10, and retry_interval_ms at most 1000; the
claimed lower bounds retry_count >= 1, retry_interval_ms >= 10 and
think_time_ms >= 10 are not enforced (see the counterexample). -/
theorem c2_task_ranges
    (nickname tid tname pid pname skuid skuname : String)
    (ticket_num retry_times retry_interval wait_for_submit
     request_time_offset priority_purchase_time : Int)
    (T : Task)
    (h1 : ticketNumItem.reachable ticket_num)
    (h2 : retryTimesItem.reachable retry_times)
    (h3 : retryIntervalItem.reachable retry_interval)
    (_h4 : waitForSubmitItem.reachable wait_for_submit)
    (h5 : requestOffsetItem.reachable request_time_offset)
    (h6 : priorityItem.reachable priority_purchase_time)
    (hT : T = mkTask nickname tid tname pid pname skuid skuname ticket_num retry_times
        retry_interval wait_for_submit request_time_offset priority_purchase_time) :
    1 ≤ T.ticket_num ∧ T.ticket_num ≤ 4 ∧
    0 ≤ T.priority_purchase_time ∧ T.priority_purchase_time ≤ 60 ∧
    -100 ≤ T.request_time_offset ∧ T.request_time_offset ≤ 1000 ∧
    T.retry_times ≤ 10 ∧ T.retry_interval ≤ 1000 := by
  subst hT
  have a1 : (1 : Int) ≤ ticket_num := h1.2.1 1 rfl
  have a2 : ticket_num ≤ 4 := h1.2.2 4 rfl
  have b1 : retry_times ≤ 10 := h2.2.2 10 rfl
  have d1 : retry_interval ≤ 1000 := h3.2.2 1000 rfl
  have e1 : (-100 : Int) ≤ request_time_offset := h5.2.1 (-100) rfl
  have e2 : request_time_offset ≤ 1000 := h5.2.2 1000 rfl
  have f1 : (0 : Int) ≤ priority_purchase_time := h6.2.1 0 rfl
  have f2 : priority_purchase_time ≤ 60 := h6.2.2 60 rfl
  simp only [mkTask]
  refine ⟨?_, ?_, f1, f2, e1, e2, ?_, ?_⟩ <;> omega

/-- Claim C2 witness: the amended range theorem applied to a concrete set of
menu-reachable choices. -/
theorem c2_task_ranges_witness :
    ticketNumItem.reachable 2 ∧ retryTimesItem.reachable 7 ∧
    retryIntervalItem.reachable 200 ∧ waitForSubmitItem.reachable 40 ∧
    requestOffsetItem.reachable (-50) ∧ priorityItem.reachable 20 ∧
    (1 ≤ (mkTask "n" "t" "tn" "p" "pn" "s" "sn" 2 7 200 40 (-50) 20).ticket_num ∧
     (mkTask "n" "t" "tn" "p" "pn" "s" "sn" 2 7 200 40 (-50) 20).ticket_num ≤ 4 ∧
     0 ≤ (mkTask "n" "t" "tn" "p" "pn" "s" "sn" 2 7 200 40 (-50) 20).priority_purchase_time ∧
     (mkTask "n" "t" "tn" "p" "pn" "s" "sn" 2 7 200 40 (-50) 20).priority_purchase_time ≤ 60 ∧
     -100 ≤ (mkTask "n" "t" "tn" "p" "pn" "s" "sn" 2 7 200 40 (-50) 20).request_time_offset ∧
     (mkTask "n" "t" "tn" "p" "pn" "s" "sn" 2 7 200 40 (-50) 20).request_time_offset ≤ 1000 ∧
     (mkTask "n" "t" "tn" "p" "pn" "s" "sn" 2 7 200 40 (-50) 20).retry_times ≤ 10 ∧
     (mkTask "n" "t" "tn" "p" "pn" "s" "sn" 2 7 200 40 (-50) 20).retry_interval ≤ 1000) := by
  have r1 : ticketNumItem.reachable 2 :=
    ⟨⟨1, by decide⟩, by intro m hm; simp [ticketNumItem] at hm; omega,
     by intro m hm; simp [ticketNumItem] at hm; omega⟩
  have r2 : retryTimesItem.reachable 7 :=
    ⟨⟨2, by decide⟩, by intro m hm; simp [retryTimesItem] at hm,
     by intro m hm; simp [retryTimesItem] at hm; omega⟩
  have r3 : retryIntervalItem.reachable 200 :=
    ⟨⟨10, by decide⟩, by intro m hm; simp [retryIntervalItem] at hm,
     by intro m hm; simp [retryIntervalItem] at hm; omega⟩
  have r4 : waitForSubmitItem.reachable 40 :=
    ⟨⟨1, by decide⟩, by intro m hm; simp [waitForSubmitItem] at hm; omega,
     by intro m hm; simp [waitForSubmitItem] at hm⟩
  have r5 : requestOffsetItem.reachable (-50) :=
    ⟨⟨-5, by decide⟩, by intro m hm; simp [requestOffsetItem] at hm; omega,
     by intro m hm; simp [requestOffsetItem] at hm; omega⟩
  have r6 : priorityItem.reachable 20 :=
    ⟨⟨1, by decide⟩, by intro m hm; simp [priorityItem] at hm; omega,
     by intro m hm; simp [priorityItem] at hm; omega⟩
  exact ⟨r1, r2, r3, r4, r5, r6,
    c2_task_ranges "n" "t" "tn" "p" "pn" "s" "sn" 2 7 200 40 (-50) 20 _
      r1 r2 r3 r4 r5 r6 rfl⟩

/-- Claim C8: the `Task` value constructed by `Client::run` always has an
empty `real_names` sequence, regardless of the operator's inputs (client.rs
line 403 hard-codes `real_names: vec![]`). -/
theorem c8_real_names_empty
    (nickname tid tname pid pname skuid skuname : String)
    (ticket_num retry_times retry_interval wait_for_submit
     request_time_offset priority_purchase_time : Int) :
    (mkTask nickname tid tname pid pname skuid skuname ticket_num retry_times retry_interval
       wait_for_submit request_time_offset priority_purchase_time).real_names = [] :=
  rfl

/-- Claim C9, counterexample: on the 60-round polling timeout path the call
`driver.quit().await?` (client.rs line 166) propagates a quit failure, so
`Client::login` returns an error instead of `Ok(("", ""))` — refuting the
claim that every unsuccessful login returns `Ok` with two empty strings. -/
theorem c9_counterexample :
    login { setupOk := true, qrSrc := some "qr", qrcodeOk := true, polls := fun _ => none,
            gotoOk := true, cookiesOk := true, quitOk := false, cookies := [] }
      = Except.error LoginErr.quitFailed ∧
    (Except.error LoginErr.quitFailed
      ≠ (Except.ok ("", "") : Except LoginErr (String × String))) :=
  ⟨rfl, fun h => Except.noConfusion h⟩

/-- Claim C9 (amended): when login does not succeed — the QR image `src`
attribute is absent, or the nickname element is not observed within 60
polling rounds — `Client::login` returns `Ok(("", ""))` rather than an error,
provided on the timeout path that the final `driver.quit()` call succeeds
(its failure is propagated there, while on the absent-`src` path the quit
error is discarded). -/
theorem c9_silent_failure (env : LoginEnv) (hs : env.setupOk = true)
    (h : env.qrSrc = none ∨
      (env.qrcodeOk = true ∧ findNick env.polls = none ∧ env.quitOk = true)) :
    login env = Except.ok ("", "") := by
  rcases h with h | ⟨hq, hn, hquit⟩
  · simp [login, hs, h]
  · cases hsrc : env.qrSrc with
    | none => simp [login, hs, hsrc]
    | some s => simp [login, hs, hsrc, hq, hn, hquit]

/-- Claim C9 witness: the amended theorem applied to a concrete environment
with an absent QR `src` attribute. -/
theorem c9_silent_failure_witness :
    (LoginEnv.setupOk ⟨true, none, true, fun _ => none, true, true, true, []⟩ = true) ∧
    ((LoginEnv.qrSrc ⟨true, none, true, fun _ => none, true, true, true, []⟩ = none) ∨
      (LoginEnv.qrcodeOk ⟨true, none, true, fun _ => none, true, true, true, []⟩ = true ∧
       findNick (LoginEnv.polls ⟨true, none, true, fun _ => none, true, true, true, []⟩) = none ∧
       LoginEnv.quitOk ⟨true, none, true, fun _ => none, true, true, true, []⟩ = true)) ∧
    login ⟨true, none, true, fun _ => none, true, true, true, []⟩ = Except.ok ("", "") :=
  ⟨rfl, Or.inl rfl, c9_silent_failure ⟨true, none, true, fun _ => none, true, true, true, []⟩
    rfl (Or.inl rfl)⟩

/-- Claim C10: `Client::get_ticket_id` offers for selection exactly the
tickets whose `category_name` contains "演唱会", taken from the
today-must-grab module followed by the upcoming module, each module's
original order preserved; tickets of any other category are excluded. -/
theorem c10_concert_filter (todayItems upcomingItems : List Ticket) :
    selectableTickets todayItems upcomingItems
      = todayItems.filter isConcert ++ upcomingItems.filter isConcert := by
  simp only [selectableTickets]
  rw [foldl_push_filter, foldl_push_filter]
  simp

/-- Claim C3: for every valid `PurchaseTask` (retry_count at least 1) and
every environment, a run of the Snatch Orchestrator reaches exactly one
terminal state — the run yields one `SnatchOutcome`, which is `success`,
`failed` or `cancelled` — and never loops unboundedly: each `Retrying` visit
decrements the remaining-attempts counter, the counters of successive
`Retrying` visits strictly decrease, and the number of visits is bounded by
`retry_count`. -/
theorem c3_terminal_and_bounded (t : PurchaseTask) (env : SnatchEnv)
    (h : 1 ≤ t.retry_count) :
    ((∃ r, (snatch t env).1 = SnatchOutcome.success r) ∨
     (∃ reason, (snatch t env).1 = SnatchOutcome.failed reason) ∨
     (snatch t env).1 = SnatchOutcome.cancelled) ∧
    (∀ p ∈ retryVisits (snatch t env).2, p.2 + 1 = p.1 ∧ p.1 ≤ t.retry_count) ∧
    List.Pairwise (fun p q : Nat × Nat => q.1 < p.1) (retryVisits (snatch t env).2) ∧
    (retryVisits (snatch t env).2).length ≤ t.retry_count := by
  by_cases hw : env.cancelWait = true
  · have hsn : snatch t env = (SnatchOutcome.cancelled, [Ev.waitUntil (waitTarget t)]) := by
      simp [snatch, hw]
    rw [hsn]
    simp [retryVisits]
  · simp only [Bool.not_eq_true] at hw
    have hsn : snatch t env
        = ((runLoop env 0 t.retry_count).1,
           Ev.waitUntil (waitTarget t) :: (runLoop env 0 t.retry_count).2) := by
      simp [snatch, hw]
    have hv := runLoop_visits env t.retry_count 0 h
    rw [hsn]
    refine ⟨?_, ?_, ?_, ?_⟩
    · cases ho : (runLoop env 0 t.retry_count).1 with
      | success r => exact Or.inl ⟨r, by simp [ho]⟩
      | failed reason => exact Or.inr (Or.inl ⟨reason, by simp [ho]⟩)
      | cancelled => exact Or.inr (Or.inr (by simp [ho]))
    · simpa [retryVisits_cons_waitUntil] using hv.1
    · simpa [retryVisits_cons_waitUntil] using hv.2.1
    · simpa [retryVisits_cons_waitUntil] using hv.2.2

/-- Claim C3 witness: the termination theorem applied to a concrete task with
retry_count 3 and an environment whose gateway always reports SoldOut. -/
theorem c3_terminal_and_bounded_witness :
    1 ≤ (PurchaseTask.retry_count ⟨"sku", 1, 1000000, 0, 50, 30, 3, 100, []⟩) ∧
    (((∃ r, (snatch ⟨"sku", 1, 1000000, 0, 50, 30, 3, 100, []⟩
        ⟨false, fun _ => ⟨RawOutcome.soldOut, RawOutcome.soldOut, false,
          RawOutcome.soldOut, RawOutcome.soldOut, false⟩⟩).1 = SnatchOutcome.success r) ∨
      (∃ reason, (snatch ⟨"sku", 1, 1000000, 0, 50, 30, 3, 100, []⟩
        ⟨false, fun _ => ⟨RawOutcome.soldOut, RawOutcome.soldOut, false,
          RawOutcome.soldOut, RawOutcome.soldOut, false⟩⟩).1 = SnatchOutcome.failed reason) ∨
      (snatch ⟨"sku", 1, 1000000, 0, 50, 30, 3, 100, []⟩
        ⟨false, fun _ => ⟨RawOutcome.soldOut, RawOutcome.soldOut, false,
          RawOutcome.soldOut, RawOutcome.soldOut, false⟩⟩).1 = SnatchOutcome.cancelled) ∧
     (∀ p ∈ retryVisits (snatch ⟨"sku", 1, 1000000, 0, 50, 30, 3, 100, []⟩
        ⟨false, fun _ => ⟨RawOutcome.soldOut, RawOutcome.soldOut, false,
          RawOutcome.soldOut, RawOutcome.soldOut, false⟩⟩).2,
        p.2 + 1 = p.1 ∧ p.1 ≤ PurchaseTask.retry_count ⟨"sku", 1, 1000000, 0, 50, 30, 3, 100, []⟩) ∧
     List.Pairwise (fun p q : Nat × Nat => q.1 < p.1)
       (retryVisits (snatch ⟨"sku", 1, 1000000, 0, 50, 30, 3, 100, []⟩
        ⟨false, fun _ => ⟨RawOutcome.soldOut, RawOutcome.soldOut, false,
          RawOutcome.soldOut, RawOutcome.soldOut, false⟩⟩).2) ∧
     (retryVisits (snatch ⟨"sku", 1, 1000000, 0, 50, 30, 3, 100, []⟩
        ⟨false, fun _ => ⟨RawOutcome.soldOut, RawOutcome.soldOut, false,
          RawOutcome.soldOut, RawOutcome.soldOut, false⟩⟩).2).length
        ≤ PurchaseTask.retry_count ⟨"sku", 1, 1000000, 0, 50, 30, 3, 100, []⟩) :=
  ⟨by decide,
   c3_terminal_and_bounded ⟨"sku", 1, 1000000, 0, 50, 30, 3, 100, []⟩
     ⟨false, fun _ => ⟨RawOutcome.soldOut, RawOutcome.soldOut, false,
       RawOutcome.soldOut, RawOutcome.soldOut, false⟩⟩ (by decide)⟩

/-- Claim C4: for a task with retry_count 3 in an environment where every
order-creation gateway call returns SoldOut and no cancellation occurs, the
Orchestrator performs exactly 3 order-creation attempts and 0
order-submission attempts, and terminates in `Failed(AttemptsExhausted)`. -/
theorem c4_soldout_three_attempts (t : PurchaseTask) (env : SnatchEnv)
    (hw : env.cancelWait = false)
    (hrc : t.retry_count = 3)
    (hcr : ∀ i, (env.cyc i).createRaw = RawOutcome.soldOut)
    (hca : ∀ i, (env.cyc i).cancelRetry = false) :
    (snatch t env).1 = SnatchOutcome.failed FailReason.attemptsExhausted ∧
    createCount (snatch t env).2 = 3 ∧
    submitCount (snatch t env).2 = 0 := by
  have h := runLoop_soldout env hcr hca t.retry_count 0 (by omega)
  have hsn : snatch t env
      = ((runLoop env 0 t.retry_count).1,
         Ev.waitUntil (waitTarget t) :: (runLoop env 0 t.retry_count).2) := by
    simp [snatch, hw]
  rw [hsn]
  rw [hrc] at h ⊢
  refine ⟨h.1, ?_, ?_⟩
  · simpa [createCount] using h.2.1
  · simpa [submitCount] using h.2.2

/-- Claim C4 witness: the SoldOut scenario theorem applied to a concrete
task and environment. -/
theorem c4_soldout_three_attempts_witness :
    (SnatchEnv.cancelWait ⟨false, fun _ => ⟨RawOutcome.soldOut, RawOutcome.soldOut, false,
       RawOutcome.soldOut, RawOutcome.soldOut, false⟩⟩ = false) ∧
    (PurchaseTask.retry_count ⟨"sku", 1, 1000000, 0, 50, 30, 3, 100, []⟩ = 3) ∧
    (∀ i, (SnatchEnv.cyc ⟨false, fun _ => ⟨RawOutcome.soldOut, RawOutcome.soldOut, false,
       RawOutcome.soldOut, RawOutcome.soldOut, false⟩⟩ i).createRaw = RawOutcome.soldOut) ∧
    (∀ i, (SnatchEnv.cyc ⟨false, fun _ => ⟨RawOutcome.soldOut, RawOutcome.soldOut, false,
       RawOutcome.soldOut, RawOutcome.soldOut, false⟩⟩ i).cancelRetry = false) ∧
    ((snatch ⟨"sku", 1, 1000000, 0, 50, 30, 3, 100, []⟩
        ⟨false, fun _ => ⟨RawOutcome.soldOut, RawOutcome.soldOut, false,
          RawOutcome.soldOut, RawOutcome.soldOut, false⟩⟩).1
       = SnatchOutcome.failed FailReason.attemptsExhausted ∧
     createCount (snatch ⟨"sku", 1, 1000000, 0, 50, 30, 3, 100, []⟩
        ⟨false, fun _ => ⟨RawOutcome.soldOut, RawOutcome.soldOut, false,
          RawOutcome.soldOut, RawOutcome.soldOut, false⟩⟩).2 = 3 ∧
     submitCount (snatch ⟨"sku", 1, 1000000, 0, 50, 30, 3, 100, []⟩
        ⟨false, fun _ => ⟨RawOutcome.soldOut, RawOutcome.soldOut, false,
          RawOutcome.soldOut, RawOutcome.soldOut, false⟩⟩).2 = 0) :=
  ⟨rfl, rfl, fun _ => rfl, fun _ => rfl,
   c4_soldout_three_attempts ⟨"sku", 1, 1000000, 0, 50, 30, 3, 100, []⟩
     ⟨false, fun _ => ⟨RawOutcome.soldOut, RawOutcome.soldOut, false,
       RawOutcome.soldOut, RawOutcome.soldOut, false⟩⟩
     rfl rfl (fun _ => rfl) (fun _ => rfl)⟩

/-- Claim C5: a `SessionExpired` outcome triggers at most one token rotation
followed by one transparent retry of the same logical call (not counted
against the caller's retry budget), and when the retried call again yields
`SessionExpired` the Orchestrator terminates with `Failed(SessionInvalid)`
rather than retrying further: with both physical responses of the first
order-creation call `SessionExpired`, the run fails with `SessionInvalid`
after exactly one logical create call and no `Retrying` visit. -/
theorem c5_session_rotation (t : PurchaseTask) (env : SnatchEnv)
    (hw : env.cancelWait = false)
    (h1 : (env.cyc 0).createRaw = RawOutcome.sessionExpired)
    (h2 : (env.cyc 0).createRetryRaw = RawOutcome.sessionExpired) :
    (∀ r1 r2 : RawOutcome, (logicalCall r1 r2).2 ≤ 1) ∧
    (∀ r2 : RawOutcome, logicalCall RawOutcome.sessionExpired r2 = (classifyRaw r2, 1)) ∧
    (snatch t env).1 = SnatchOutcome.failed FailReason.sessionInvalid ∧
    retryVisits (snatch t env).2 = [] ∧
    createCount (snatch t env).2 = 1 := by
  have hrot : ∀ r1 r2 : RawOutcome, (logicalCall r1 r2).2 ≤ 1 := by
    intro r1 r2
    cases r1 <;> simp [logicalCall]
  have hcyc : ∀ n, runCycle (env.cyc 0) n
      = (CycleRes.done (SnatchOutcome.failed FailReason.sessionInvalid),
         [Ev.create n GwResult.sessionInvalid]) := by
    intro n
    simp [runCycle, logicalCall, h1, h2, classifyRaw]
  have hloop : ∀ n, runLoop env 0 n
      = (SnatchOutcome.failed FailReason.sessionInvalid,
         [Ev.create n GwResult.sessionInvalid]) := by
    intro n
    cases n with
    | zero => simp [runLoop, hcyc]
    | succ a => simp [runLoop, hcyc]
  have hsn : snatch t env
      = (SnatchOutcome.failed FailReason.sessionInvalid,
         [Ev.waitUntil (waitTarget t), Ev.create t.retry_count GwResult.sessionInvalid]) := by
    simp [snatch, hw, hloop]
  refine ⟨hrot, fun r2 => rfl, ?_, ?_, ?_⟩ <;> rw [hsn] <;> simp [retryVisits, createCount]

/-- Claim C5 witness: the session-rotation theorem applied to a concrete task
and an environment whose first create call answers `SessionExpired` twice. -/
theorem c5_session_rotation_witness :
    (SnatchEnv.cancelWait ⟨false, fun _ => ⟨RawOutcome.sessionExpired, RawOutcome.sessionExpired,
       false, RawOutcome.soldOut, RawOutcome.soldOut, false⟩⟩ = false) ∧
    ((SnatchEnv.cyc ⟨false, fun _ => ⟨RawOutcome.sessionExpired, RawOutcome.sessionExpired,
       false, RawOutcome.soldOut, RawOutcome.soldOut, false⟩⟩ 0).createRaw
      = RawOutcome.sessionExpired) ∧
    ((SnatchEnv.cyc ⟨false, fun _ => ⟨RawOutcome.sessionExpired, RawOutcome.sessionExpired,
       false, RawOutcome.soldOut, RawOutcome.soldOut, false⟩⟩ 0).createRetryRaw
      = RawOutcome.sessionExpired) ∧
    ((∀ r1 r2 : RawOutcome, (logicalCall r1 r2).2 ≤ 1) ∧
     (∀ r2 : RawOutcome, logicalCall RawOutcome.sessionExpired r2 = (classifyRaw r2, 1)) ∧
     (snatch ⟨"sku", 1, 1000000, 0, 50, 30, 3, 100, []⟩
        ⟨false, fun _ => ⟨RawOutcome.sessionExpired, RawOutcome.sessionExpired,
          false, RawOutcome.soldOut, RawOutcome.soldOut, false⟩⟩).1
       = SnatchOutcome.failed FailReason.sessionInvalid ∧
     retryVisits (snatch ⟨"sku", 1, 1000000, 0, 50, 30, 3, 100, []⟩
        ⟨false, fun _ => ⟨RawOutcome.sessionExpired, RawOutcome.sessionExpired,
          false, RawOutcome.soldOut, RawOutcome.soldOut, false⟩⟩).2 = [] ∧
     createCount (snatch ⟨"sku", 1, 1000000, 0, 50, 30, 3, 100, []⟩
        ⟨false, fun _ => ⟨RawOutcome.sessionExpired, RawOutcome.sessionExpired,
          false, RawOutcome.soldOut, RawOutcome.soldOut, false⟩⟩).2 = 1) :=
  ⟨rfl, rfl, rfl,
   c5_session_rotation ⟨"sku", 1, 1000000, 0, 50, 30, 3, 100, []⟩
     ⟨false, fun _ => ⟨RawOutcome.sessionExpired, RawOutcome.sessionExpired,
       false, RawOutcome.soldOut, RawOutcome.soldOut, false⟩⟩ rfl rfl rfl⟩

/-- Claim C6: the `WaitingForWindow` wake-up target recorded by every run
equals sale_time - priority_window_minutes*60000 + clock_offset_ms; in
particular, for sale_time 1000000, priority_window_minutes 0 and
clock_offset_ms 50, the target is 1000050. -/
theorem c6_wait_target :
    (∀ (t : PurchaseTask) (env : SnatchEnv),
      ((snatch t env).2).head? = some (Ev.waitUntil
        (t.sale_time - t.priority_window_minutes * 60000 + t.clock_offset_ms))) ∧
    waitTarget ⟨"sku", 1, 1000000, 0, 50, 30, 3, 100, []⟩ = 1000050 := by
  constructor
  · intro t env
    by_cases hw : env.cancelWait = true <;> simp [snatch, hw, waitTarget]
  · decide

/-- Claim C7: in every Orchestrator run, every order-submission call uses the
token minted by the immediately preceding order-creation of the same cycle —
an `OrderToken` whose submission fails is never passed to a later submission,
since the trace position right before any submission event is the creation
event of the very token being submitted. -/
theorem c7_token_single_use (t : PurchaseTask) (env : SnatchEnv)
    (i : Nat) (tok : String) (res : GwResult)
    (h : ((snatch t env).2)[i]? = some (Ev.submit tok res)) :
    1 ≤ i ∧ ∃ a, ((snatch t env).2)[i - 1]? = some (Ev.create a (GwResult.ok tok)) := by
  have hp : submitsPaired (snatch t env).2 := by
    by_cases hw : env.cancelWait = true
    · have hsn : (snatch t env).2 = [Ev.waitUntil (waitTarget t)] := by simp [snatch, hw]
      rw [hsn]
      exact submitsPaired_of_no_submit (by simp)
    · simp only [Bool.not_eq_true] at hw
      have hsn : (snatch t env).2
          = [Ev.waitUntil (waitTarget t)] ++ (runLoop env 0 t.retry_count).2 := by
        simp [snatch, hw]
      rw [hsn]
      exact submitsPaired_append (submitsPaired_of_no_submit (by simp))
        (runLoop_paired env t.retry_count 0)
  exact hp i tok res h

/-- Claim C7 witness: the token-pairing theorem applied to a concrete run in
which the submission at trace position 2 consumes the token minted by the
creation at position 1. -/
theorem c7_token_single_use_witness :
    ((snatch ⟨"sku", 1, 1000000, 0, 50, 30, 3, 100, []⟩
       ⟨false, fun _ => ⟨RawOutcome.ok "tok1", RawOutcome.soldOut, false,
         RawOutcome.ok "ref1", RawOutcome.soldOut, false⟩⟩).2)[2]?
      = some (Ev.submit "tok1" (GwResult.ok "ref1")) ∧
    (1 ≤ 2 ∧ ∃ a, ((snatch ⟨"sku", 1, 1000000, 0, 50, 30, 3, 100, []⟩
       ⟨false, fun _ => ⟨RawOutcome.ok "tok1", RawOutcome.soldOut, false,
         RawOutcome.ok "ref1", RawOutcome.soldOut, false⟩⟩).2)[2 - 1]?
      = some (Ev.create a (GwResult.ok "tok1"))) :=
  ⟨by decide,
   c7_token_single_use ⟨"sku", 1, 1000000, 0, 50, 30, 3, 100, []⟩
     ⟨false, fun _ => ⟨RawOutcome.ok "tok1", RawOutcome.soldOut, false,
       RawOutcome.ok "ref1", RawOutcome.soldOut, false⟩⟩
     2 "tok1" (GwResult.ok "ref1") (by decide)⟩

end Tick
